import Mathlib

/-!
Shallow embedding of the js-backend video-sharing application
(controllers under src/src/controllers and src/unnamed), together with
theorems settling the spec claims.  Every definition is translated from
the JavaScript source; document-database collections are modelled as
lists of documents, and each HTTP handler becomes a pure function from
request data and store state to the new state and an outcome.
-/

namespace JsBackend

/-- JavaScript runtime values as they occur in the handlers: `undefined`,
string primitives, and mongoose `ObjectId` instances (`ref` is the object
identity, `hex` its 24-hex-character payload). -/
inductive JsVal where
  | undef
  | str (s : String)
  | objectId (ref : Nat) (hex : String)
  deriving Repr, DecidableEq

/-- JavaScript strict equality `===`: strings compare by content,
objects by reference; operands of different runtime types are never
strictly equal (no coercion). -/
def jsStrictEq : JsVal → JsVal → Bool
  | .undef, .undef => true
  | .str a, .str b => a == b
  | .objectId r1 _, .objectId r2 _ => r1 == r2
  | _, _ => false

/-- JavaScript truthiness of a string: the empty string is falsy. -/
def jsTruthyStr (s : String) : Bool := s ≠ ""

/-- JavaScript truthiness of an optional string field (`undefined` when
absent): absent and empty-string values are falsy. -/
def jsTruthyOpt : Option String → Bool
  | none => false
  | some s => s ≠ ""

/-- Hexadecimal digit test, as used by ObjectId validation. -/
def isHexChar (c : Char) : Bool :=
  c.isDigit || (97 ≤ c.toNat && c.toNat ≤ 102) || (65 ≤ c.toNat && c.toNat ≤ 70)

/-- `mongoose.isValidObjectId` / `Types.ObjectId.isValid`: true for
24-character hex strings and for 12-character strings (12-byte ids). -/
def isValidObjectId (s : String) : Bool :=
  (s.length == 24 && s.toList.all isHexChar) || s.length == 12

/-- A valid ObjectId string is truthy (it is non-empty). -/
theorem isValidObjectId_truthy {s : String} (h : isValidObjectId s = true) :
    jsTruthyStr s = true := by
  simp only [isValidObjectId, Bool.or_eq_true, Bool.and_eq_true, beq_iff_eq] at h
  simp only [jsTruthyStr, ne_eq, decide_eq_true_eq]
  intro hs
  subst hs
  simp at h

/-! ## Generic toggle pattern

Each like/subscribe toggle is a find-then-create-or-delete sequence on a
document list: `findOne` scans for the first match, `create` appends a
new document, `deleteOne` removes the found (first matching) document. -/

/-- One toggle step on a document list: if no document satisfies `p`,
append the freshly created document `mk`; otherwise delete the first
document satisfying `p` (mongoose `findOne` / `create` / `deleteOne`). -/
def toggleCore (p : α → Bool) (mk : α) (s : List α) : List α :=
  match s.find? p with
  | none => s ++ [mk]
  | some _ => s.eraseP p

/-- `n` sequential invocations of the toggle step. -/
def iterCore (p : α → Bool) (mk : α) : Nat → List α → List α
  | 0, s => s
  | n + 1, s => toggleCore p mk (iterCore p mk n s)

theorem filter_eraseP_of_filter_singleton (p : α → Bool) (mk : α) :
    ∀ s : List α, s.filter p = [mk] → (s.eraseP p).filter p = [] := by
  intro s
  induction s with
  | nil => intro h; simp at h
  | cons a t ih =>
    intro h
    by_cases hpa : p a = true
    · rw [List.filter_cons_of_pos hpa] at h
      have ht : t.filter p = [] := by
        injection h with h1 h2
      rw [List.eraseP_cons_of_pos hpa]
      exact ht
    · have hpa' : p a = false := by
        cases hp : p a
        · rfl
        · exact absurd hp hpa
      rw [List.filter_cons_of_neg (by simp [hpa'])] at h
      rw [List.eraseP_cons_of_neg (by simp [hpa'])]
      rw [List.filter_cons_of_neg (by simp [hpa'])]
      exact ih h

theorem iterCore_filter (p : α → Bool) (mk : α) (hmk : p mk = true) :
    ∀ (n : Nat) (s : List α), s.filter p = [] →
      (iterCore p mk n s).filter p = if n % 2 = 1 then [mk] else [] := by
  intro n
  induction n with
  | zero => intro s h; simpa [iterCore] using h
  | succ n ih =>
    intro s h
    have hstate := ih s h
    rcases Nat.mod_two_eq_zero_or_one n with heven | hodd
    · -- even state: the pair is absent, the toggle creates it
      rw [heven] at hstate
      simp only [if_neg (by omega : ¬ (0 : Nat) = 1)] at hstate
      have hfind : (iterCore p mk n s).find? p = none := by
        rw [List.find?_eq_none]
        intro x hx
        have := List.filter_eq_nil_iff.mp hstate x hx
        simpa using this
      have hsucc : (n + 1) % 2 = 1 := by omega
      rw [iterCore, toggleCore, hfind, List.filter_append, hstate, hsucc]
      simp [hmk]
    · -- odd state: the pair is present once, the toggle deletes it
      rw [hodd] at hstate
      simp only [if_pos rfl] at hstate
      have hmem : mk ∈ (iterCore p mk n s).filter p := by
        rw [hstate]; exact List.mem_singleton_self mk
      have hfind : (iterCore p mk n s).find? p ≠ none := by
        intro hc
        rw [List.find?_eq_none] at hc
        have hmk' := List.mem_filter.mp hmem
        exact hc mk hmk'.1 hmk'.2
      have hsucc : (n + 1) % 2 ≠ 1 := by omega
      rw [iterCore, toggleCore]
      cases hf : (iterCore p mk n s).find? p with
      | none => exact absurd hf hfind
      | some a =>
        rw [if_neg hsucc]
        exact filter_eraseP_of_filter_singleton p mk _ hstate

/-! ## Social graph: subscriptions (src/src/controllers/subscription.controller.js) -/

/-- A document of the `subscriptions` collection: subscriber and channel
user ids (stored as ObjectId hex strings after the mongoose cast). -/
structure SubDoc where
  subscriber : String
  channel : String
  deriving Repr, DecidableEq

/-- The authenticated request user (`req.user`), a mongoose document:
`ref` models the ObjectId object identity of `_id`, `idHex` its value. -/
structure ReqUser where
  ref : Nat
  idHex : String
  deriving Repr, DecidableEq

/-- Outcome of a handler: a JSON success response, a thrown `ApiError`
(status + message), or an uncaught JavaScript runtime error. -/
inductive Outcome (α : Type) where
  | json (status : Nat) (data : α) (msg : String)
  | apiError (status : Nat) (msg : String)
  | jsError (msg : String)
  deriving Repr, DecidableEq

/-- `toggleSubscription` (subscription.controller.js lines 7–47): the
self-subscription guard compares the `channelId` request-parameter
string with `user._id` (an ObjectId instance) using `===`; then a
truthiness check on `channelId`; then find-or-create-then-delete on the
(subscriber, channel) pair. -/
def toggleSubscription (user : ReqUser) (channelId : String)
    (subs : List SubDoc) : List SubDoc × Outcome SubDoc :=
  if jsStrictEq (.str channelId) (.objectId user.ref user.idHex) then
    (subs, .apiError 400 "you cannot subscribe to yourself")
  else if ¬ jsTruthyStr channelId then
    (subs, .apiError 400 "channelId is required")
  else
    match subs.find? (fun d => d.subscriber == user.idHex && d.channel == channelId) with
    | none =>
      let doc : SubDoc := ⟨user.idHex, channelId⟩
      (subs ++ [doc], .json 200 doc "subscription created successfully")
    | some doc =>
      (subs.eraseP (fun d => d.subscriber == user.idHex && d.channel == channelId),
       .json 200 doc "subscription deleted successfully")

/-! ## Engagement: likes (src/src/controllers/like.controller.js) -/

/-- A document of the `likes` collection: exactly one of the target
fields is set on creation, plus the liking user. -/
structure LikeDoc where
  video : Option String
  comment : Option String
  tweet : Option String
  likedBy : String
  deriving Repr, DecidableEq

/-- `toggleVideoLike` (like.controller.js lines 7–43). -/
def toggleVideoLike (user : ReqUser) (videoId : String)
    (likes : List LikeDoc) : List LikeDoc × Outcome LikeDoc :=
  if ¬ isValidObjectId videoId then
    (likes, .apiError 400 "videoId is not valid")
  else
    match likes.find? (fun d => d.video == some videoId && d.likedBy == user.idHex) with
    | none =>
      let doc : LikeDoc := ⟨some videoId, none, none, user.idHex⟩
      (likes ++ [doc], .json 200 doc "like created successfully")
    | some doc =>
      (likes.eraseP (fun d => d.video == some videoId && d.likedBy == user.idHex),
       .json 200 doc "like deleted successfully")

/-- `toggleCommentLike` (like.controller.js lines 45–79). -/
def toggleCommentLike (user : ReqUser) (commentId : String)
    (likes : List LikeDoc) : List LikeDoc × Outcome LikeDoc :=
  if ¬ isValidObjectId commentId then
    (likes, .apiError 400 "commentId is not valid")
  else
    match likes.find? (fun d => d.comment == some commentId && d.likedBy == user.idHex) with
    | none =>
      let doc : LikeDoc := ⟨none, some commentId, none, user.idHex⟩
      (likes ++ [doc], .json 200 doc "like created successfully")
    | some doc =>
      (likes.eraseP (fun d => d.comment == some commentId && d.likedBy == user.idHex),
       .json 200 doc "like deleted successfully")

/-- `toggleTweetLike` (like.controller.js lines 81–115).  In the delete
branch the handler calls `res.status(200).ApiError(...)`: the response
object has no `ApiError` method, so the call raises a `TypeError` after
`like.deleteOne()` has already run; the surrounding `catch` turns it
into `ApiError(400, "something went wrong")`.  The deletion persists. -/
def toggleTweetLike (user : ReqUser) (tweetId : String)
    (likes : List LikeDoc) : List LikeDoc × Outcome LikeDoc :=
  if ¬ isValidObjectId tweetId then
    (likes, .apiError 400 "tweetId is not valid")
  else
    match likes.find? (fun d => d.tweet == some tweetId && d.likedBy == user.idHex) with
    | none =>
      let doc : LikeDoc := ⟨none, none, some tweetId, user.idHex⟩
      (likes ++ [doc], .json 200 doc "like created successfully")
    | some _ =>
      -- deleteOne has run; res.status(200).ApiError throws a TypeError,
      -- caught and rethrown as ApiError(400, "something went wrong")
      (likes.eraseP (fun d => d.tweet == some tweetId && d.likedBy == user.idHex),
       .apiError 400 "something went wrong")

/-! ### Iterated toggles and relation counts (for claim C1) -/

/-- `n` sequential `toggleSubscription` requests from the same actor for
the same channel, threading the store state. -/
def iterToggleSub (user : ReqUser) (c : String) : Nat → List SubDoc → List SubDoc
  | 0, s => s
  | n + 1, s => (toggleSubscription user c (iterToggleSub user c n s)).1

/-- `n` sequential `toggleVideoLike` requests. -/
def iterToggleVideoLike (user : ReqUser) (v : String) : Nat → List LikeDoc → List LikeDoc
  | 0, s => s
  | n + 1, s => (toggleVideoLike user v (iterToggleVideoLike user v n s)).1

/-- `n` sequential `toggleCommentLike` requests. -/
def iterToggleCommentLike (user : ReqUser) (c : String) : Nat → List LikeDoc → List LikeDoc
  | 0, s => s
  | n + 1, s => (toggleCommentLike user c (iterToggleCommentLike user c n s)).1

/-- `n` sequential `toggleTweetLike` requests. -/
def iterToggleTweetLike (user : ReqUser) (t : String) : Nat → List LikeDoc → List LikeDoc
  | 0, s => s
  | n + 1, s => (toggleTweetLike user t (iterToggleTweetLike user t n s)).1

/-- Number of subscription documents for the (subscriber, channel) pair. -/
def subCount (uid cid : String) (subs : List SubDoc) : Nat :=
  (subs.filter (fun d => d.subscriber == uid && d.channel == cid)).length

/-- Number of like documents for the (video, user) pair. -/
def videoLikeCount (uid v : String) (likes : List LikeDoc) : Nat :=
  (likes.filter (fun d => d.video == some v && d.likedBy == uid)).length

/-- Number of like documents for the (comment, user) pair. -/
def commentLikeCount (uid c : String) (likes : List LikeDoc) : Nat :=
  (likes.filter (fun d => d.comment == some c && d.likedBy == uid)).length

/-- Number of like documents for the (tweet, user) pair. -/
def tweetLikeCount (uid t : String) (likes : List LikeDoc) : Nat :=
  (likes.filter (fun d => d.tweet == some t && d.likedBy == uid)).length

theorem toggleSubscription_state_eq (user : ReqUser) (c : String) (s : List SubDoc)
    (hc : jsTruthyStr c = true) :
    (toggleSubscription user c s).1
      = toggleCore (fun d => d.subscriber == user.idHex && d.channel == c)
          ⟨user.idHex, c⟩ s := by
  unfold toggleSubscription
  rw [if_neg (by simp [jsStrictEq]), if_neg (by simp [hc])]
  unfold toggleCore
  cases hf : s.find? (fun d => d.subscriber == user.idHex && d.channel == c) <;> simp [hf]

theorem toggleVideoLike_state_eq (user : ReqUser) (v : String) (s : List LikeDoc)
    (hv : isValidObjectId v = true) :
    (toggleVideoLike user v s).1
      = toggleCore (fun d => d.video == some v && d.likedBy == user.idHex)
          ⟨some v, none, none, user.idHex⟩ s := by
  unfold toggleVideoLike
  rw [if_neg (by simp [hv])]
  unfold toggleCore
  cases hf : s.find? (fun d => d.video == some v && d.likedBy == user.idHex) <;> simp [hf]

theorem toggleCommentLike_state_eq (user : ReqUser) (c : String) (s : List LikeDoc)
    (hv : isValidObjectId c = true) :
    (toggleCommentLike user c s).1
      = toggleCore (fun d => d.comment == some c && d.likedBy == user.idHex)
          ⟨none, some c, none, user.idHex⟩ s := by
  unfold toggleCommentLike
  rw [if_neg (by simp [hv])]
  unfold toggleCore
  cases hf : s.find? (fun d => d.comment == some c && d.likedBy == user.idHex) <;> simp [hf]

theorem toggleTweetLike_state_eq (user : ReqUser) (t : String) (s : List LikeDoc)
    (hv : isValidObjectId t = true) :
    (toggleTweetLike user t s).1
      = toggleCore (fun d => d.tweet == some t && d.likedBy == user.idHex)
          ⟨none, none, some t, user.idHex⟩ s := by
  unfold toggleTweetLike
  rw [if_neg (by simp [hv])]
  unfold toggleCore
  cases hf : s.find? (fun d => d.tweet == some t && d.likedBy == user.idHex) <;> simp [hf]

theorem iterToggleSub_eq_iterCore (user : ReqUser) (c : String)
    (hc : jsTruthyStr c = true) (n : Nat) (s : List SubDoc) :
    iterToggleSub user c n s
      = iterCore (fun d => d.subscriber == user.idHex && d.channel == c)
          ⟨user.idHex, c⟩ n s := by
  induction n with
  | zero => rfl
  | succ n ih =>
    rw [iterToggleSub, iterCore, ih, toggleSubscription_state_eq user c _ hc]

theorem iterToggleVideoLike_eq_iterCore (user : ReqUser) (v : String)
    (hv : isValidObjectId v = true) (n : Nat) (s : List LikeDoc) :
    iterToggleVideoLike user v n s
      = iterCore (fun d => d.video == some v && d.likedBy == user.idHex)
          ⟨some v, none, none, user.idHex⟩ n s := by
  induction n with
  | zero => rfl
  | succ n ih =>
    rw [iterToggleVideoLike, iterCore, ih, toggleVideoLike_state_eq user v _ hv]

theorem iterToggleCommentLike_eq_iterCore (user : ReqUser) (c : String)
    (hv : isValidObjectId c = true) (n : Nat) (s : List LikeDoc) :
    iterToggleCommentLike user c n s
      = iterCore (fun d => d.comment == some c && d.likedBy == user.idHex)
          ⟨none, some c, none, user.idHex⟩ n s := by
  induction n with
  | zero => rfl
  | succ n ih =>
    rw [iterToggleCommentLike, iterCore, ih, toggleCommentLike_state_eq user c _ hv]

theorem iterToggleTweetLike_eq_iterCore (user : ReqUser) (t : String)
    (hv : isValidObjectId t = true) (n : Nat) (s : List LikeDoc) :
    iterToggleTweetLike user t n s
      = iterCore (fun d => d.tweet == some t && d.likedBy == user.idHex)
          ⟨none, none, some t, user.idHex⟩ n s := by
  induction n with
  | zero => rfl
  | succ n ih =>
    rw [iterToggleTweetLike, iterCore, ih, toggleTweetLike_state_eq user t _ hv]

theorem count_after_iterCore (p : α → Bool) (mk : α) (hmk : p mk = true)
    (n : Nat) (s : List α) (h0 : (s.filter p).length = 0) :
    ((iterCore p mk n s).filter p).length = if n % 2 = 1 then 1 else 0 := by
  have hnil : s.filter p = [] := List.length_eq_zero.mp h0
  rw [iterCore_filter p mk hmk n s hnil]
  split <;> rfl

/-- C1: starting from a state with no relation document for the
(actor, target) pair, `n` sequential invocations of each toggle
operation leave exactly one relation document when `n` is odd and none
when `n` is even. -/
theorem claim_c1_toggle_parity (user : ReqUser) (target : String) (n : Nat)
    (subs0 : List SubDoc) (likes0 : List LikeDoc)
    (hvalid : isValidObjectId target = true)
    (hs : subCount user.idHex target subs0 = 0)
    (hv : videoLikeCount user.idHex target likes0 = 0)
    (hc : commentLikeCount user.idHex target likes0 = 0)
    (ht : tweetLikeCount user.idHex target likes0 = 0) :
    (subCount user.idHex target (iterToggleSub user target n subs0)
        = if n % 2 = 1 then 1 else 0)
    ∧ (videoLikeCount user.idHex target (iterToggleVideoLike user target n likes0)
        = if n % 2 = 1 then 1 else 0)
    ∧ (commentLikeCount user.idHex target (iterToggleCommentLike user target n likes0)
        = if n % 2 = 1 then 1 else 0)
    ∧ (tweetLikeCount user.idHex target (iterToggleTweetLike user target n likes0)
        = if n % 2 = 1 then 1 else 0) := by
  refine ⟨?_, ?_, ?_, ?_⟩
  · rw [subCount, iterToggleSub_eq_iterCore user target (isValidObjectId_truthy hvalid) n subs0]
    exact count_after_iterCore _ _ (by simp) n subs0 hs
  · rw [videoLikeCount, iterToggleVideoLike_eq_iterCore user target hvalid n likes0]
    exact count_after_iterCore _ _ (by simp) n likes0 hv
  · rw [commentLikeCount, iterToggleCommentLike_eq_iterCore user target hvalid n likes0]
    exact count_after_iterCore _ _ (by simp) n likes0 hc
  · rw [tweetLikeCount, iterToggleTweetLike_eq_iterCore user target hvalid n likes0]
    exact count_after_iterCore _ _ (by simp) n likes0 ht

/-- Witness for C1 at a concrete actor, target, and n = 3. -/
theorem claim_c1_toggle_parity_witness :
    isValidObjectId "650000000000000000000002" = true
    ∧ subCount "650000000000000000000001" "650000000000000000000002" [] = 0
    ∧ videoLikeCount "650000000000000000000001" "650000000000000000000002" [] = 0
    ∧ commentLikeCount "650000000000000000000001" "650000000000000000000002" [] = 0
    ∧ tweetLikeCount "650000000000000000000001" "650000000000000000000002" [] = 0
    ∧ ((subCount "650000000000000000000001" "650000000000000000000002"
          (iterToggleSub ⟨0, "650000000000000000000001"⟩ "650000000000000000000002" 3 [])
          = if 3 % 2 = 1 then 1 else 0)
       ∧ (videoLikeCount "650000000000000000000001" "650000000000000000000002"
          (iterToggleVideoLike ⟨0, "650000000000000000000001"⟩ "650000000000000000000002" 3 [])
          = if 3 % 2 = 1 then 1 else 0)
       ∧ (commentLikeCount "650000000000000000000001" "650000000000000000000002"
          (iterToggleCommentLike ⟨0, "650000000000000000000001"⟩ "650000000000000000000002" 3 [])
          = if 3 % 2 = 1 then 1 else 0)
       ∧ (tweetLikeCount "650000000000000000000001" "650000000000000000000002"
          (iterToggleTweetLike ⟨0, "650000000000000000000001"⟩ "650000000000000000000002" 3 [])
          = if 3 % 2 = 1 then 1 else 0)) :=
  ⟨by decide, by decide, by decide, by decide, by decide,
   claim_c1_toggle_parity ⟨0, "650000000000000000000001"⟩ "650000000000000000000002" 3 [] []
     (by decide) (by decide) (by decide) (by decide) (by decide)⟩

/-- C3: the self-subscription guard compares the `channelId` parameter
(a string) with `user._id` (an ObjectId instance) using `===`, which is
never true across runtime types, so a request whose channelId equals the
the id of the caller is NOT rejected: it proceeds and creates a
self-subscription document.  Concrete evaluation at such a request. -/
theorem claim_c3_self_subscription_not_rejected :
    toggleSubscription ⟨0, "650000000000000000000001"⟩ "650000000000000000000001" []
      = ([⟨"650000000000000000000001", "650000000000000000000001"⟩],
         .json 200 ⟨"650000000000000000000001", "650000000000000000000001"⟩
           "subscription created successfully") := by decide

/-- C10: when a like by the caller on the given tweet already exists,
`toggleTweetLike` deletes the like document from the store and yet the
request terminates in the error path (400 "something went wrong") rather
than a success response: the state change persists despite the error. -/
theorem claim_c10_tweet_like_delete_errors (user : ReqUser) (t : String)
    (likes : List LikeDoc)
    (hvalid : isValidObjectId t = true)
    (hpresent : tweetLikeCount user.idHex t likes = 1) :
    tweetLikeCount user.idHex t (toggleTweetLike user t likes).1 = 0
    ∧ (toggleTweetLike user t likes).2 = .apiError 400 "something went wrong" := by
  have hone : ∃ d, likes.filter (fun d => d.tweet == some t && d.likedBy == user.idHex) = [d] :=
    List.length_eq_one.mp hpresent
  obtain ⟨d, hd⟩ := hone
  have hmem : d ∈ likes.filter (fun d => d.tweet == some t && d.likedBy == user.idHex) := by
    rw [hd]; exact List.mem_singleton_self d
  have hdl := List.mem_filter.mp hmem
  have hfind : likes.find? (fun d => d.tweet == some t && d.likedBy == user.idHex) ≠ none := by
    intro h0
    rw [List.find?_eq_none] at h0
    exact absurd hdl.2 (by simpa using h0 d hdl.1)
  unfold toggleTweetLike
  rw [if_neg (by simp [hvalid])]
  cases hf : likes.find? (fun d => d.tweet == some t && d.likedBy == user.idHex) with
  | none => exact absurd hf hfind
  | some a =>
    exact ⟨by simp [tweetLikeCount, filter_eraseP_of_filter_singleton _ d likes hd], rfl⟩

/-- Witness for C10 at a concrete user, tweet, and store. -/
theorem claim_c10_tweet_like_delete_errors_witness :
    isValidObjectId "650000000000000000000002" = true
    ∧ tweetLikeCount "650000000000000000000001" "650000000000000000000002"
        [⟨none, none, some "650000000000000000000002", "650000000000000000000001"⟩] = 1
    ∧ (tweetLikeCount "650000000000000000000001" "650000000000000000000002"
        (toggleTweetLike ⟨0, "650000000000000000000001"⟩ "650000000000000000000002"
          [⟨none, none, some "650000000000000000000002", "650000000000000000000001"⟩]).1 = 0
       ∧ (toggleTweetLike ⟨0, "650000000000000000000001"⟩ "650000000000000000000002"
          [⟨none, none, some "650000000000000000000002", "650000000000000000000001"⟩]).2
         = .apiError 400 "something went wrong") :=
  ⟨by decide, by decide,
   claim_c10_tweet_like_delete_errors ⟨0, "650000000000000000000001"⟩
     "650000000000000000000002"
     [⟨none, none, some "650000000000000000000002", "650000000000000000000001"⟩]
     (by decide) (by decide)⟩

/-! ## Content: videos and playlists -/

/-- A document of the `videos` collection (video.model fields used by
the controllers). -/
structure VideoDoc where
  vid : String
  title : String
  description : String
  thumbnail : String
  videofile : String
  views : Nat
  duration : Nat
  deriving Repr, DecidableEq

/-- A document of the `playlists` collection. -/
structure PlaylistDoc where
  plId : String
  name : String
  description : String
  owner : String
  videos : List String
  deriving Repr, DecidableEq

/-- `addVideoToPlaylist` (playlist.controller.js lines 263–292):
validates both ids, requires the video and the playlist to exist,
rejects a duplicate add, otherwise pushes the video id and saves. -/
def addVideoToPlaylist (videoId playlistId : String) (videos : List VideoDoc)
    (playlists : List PlaylistDoc) : List PlaylistDoc × Outcome PlaylistDoc :=
  if !(isValidObjectId videoId) || !(isValidObjectId playlistId) then
    (playlists, .apiError 400 "videoId or playlistId is not valid.")
  else
    match videos.find? (fun v => v.vid == videoId) with
    | none => (playlists, .apiError 400 "Api Error. video not found")
    | some video =>
      match playlists.find? (fun q => q.plId == playlistId) with
      | none => (playlists, .apiError 400 "Api Error. playlist not found")
      | some playList =>
        if playList.videos.contains video.vid then
          (playlists, .apiError 400 "Api Error. video already in playlist")
        else
          let updated := { playList with videos := playList.videos ++ [video.vid] }
          (playlists.map (fun q => if q.plId == playlistId then updated else q),
           .json 200 updated "video added to playlist successfully")

/-- `removeVideoFromPlaylist` (playlist.controller.js lines 345–373):
same guards; rejects removal of an absent video, otherwise `pull`s the
video id (removing every occurrence) and saves. -/
def removeVideoFromPlaylist (videoId playlistId : String) (videos : List VideoDoc)
    (playlists : List PlaylistDoc) : List PlaylistDoc × Outcome PlaylistDoc :=
  if !(isValidObjectId videoId) || !(isValidObjectId playlistId) then
    (playlists, .apiError 400 "videoId or playlistId is not valid.")
  else
    match videos.find? (fun v => v.vid == videoId) with
    | none => (playlists, .apiError 400 "Api Error. video not found")
    | some video =>
      match playlists.find? (fun q => q.plId == playlistId) with
      | none => (playlists, .apiError 400 "Api Error. playlist not found")
      | some playList =>
        if !(playList.videos.contains video.vid) then
          (playlists, .apiError 400 "Api Error. video not in playlist")
        else
          let updated := { playList with
            videos := playList.videos.filter (fun x => !(x == video.vid)) }
          (playlists.map (fun q => if q.plId == playlistId then updated else q),
           .json 200 updated "video removed from playlist successfully")

/-- C7: for every playlist and video, adding when absent appends exactly
the video id (an empty playlist becomes `[V]`); adding when present
fails with the "already in playlist" error leaving the state unchanged;
removing when present deletes exactly that id (`[V]` becomes `[]`);
removing when absent fails leaving the state unchanged. -/
theorem claim_c7_playlist_add_remove
    (videoId playlistId : String) (videos : List VideoDoc)
    (playlists : List PlaylistDoc) (video : VideoDoc) (p : PlaylistDoc)
    (hv : isValidObjectId videoId = true)
    (hp : isValidObjectId playlistId = true)
    (hfv : videos.find? (fun v => v.vid == videoId) = some video)
    (hfp : playlists.find? (fun q => q.plId == playlistId) = some p) :
    (videoId ∉ p.videos →
       (addVideoToPlaylist videoId playlistId videos playlists).2
         = .json 200 { p with videos := p.videos ++ [videoId] }
             "video added to playlist successfully"
       ∧ (p.videos = [] → p.videos ++ [videoId] = [videoId]))
    ∧ (videoId ∈ p.videos →
       addVideoToPlaylist videoId playlistId videos playlists
         = (playlists, .apiError 400 "Api Error. video already in playlist"))
    ∧ (videoId ∈ p.videos →
       (removeVideoFromPlaylist videoId playlistId videos playlists).2
         = .json 200 { p with videos := p.videos.filter (fun x => !(x == videoId)) }
             "video removed from playlist successfully"
       ∧ (p.videos = [videoId] → p.videos.filter (fun x => !(x == videoId)) = []))
    ∧ (videoId ∉ p.videos →
       removeVideoFromPlaylist videoId playlistId videos playlists
         = (playlists, .apiError 400 "Api Error. video not in playlist")) := by
  have hvid : video.vid = videoId := by
    have := List.find?_some hfv
    simpa using this
  refine ⟨?_, ?_, ?_, ?_⟩
  · intro hmem
    have hcont : p.videos.contains video.vid = false := by
      rw [hvid]
      exact Bool.eq_false_iff.mpr (fun hc => hmem (List.contains_iff_exists_mem_beq.mp hc
        |>.elim (fun b hb => by
          obtain ⟨hbmem, hbeq⟩ := hb
          rw [show videoId = b from by simpa using hbeq]
          exact hbmem)))
    unfold addVideoToPlaylist
    rw [if_neg (by simp [hv, hp])]
    simp only [hfv, hfp, hcont]
    exact ⟨by simp [hvid], fun h => by simp [h]⟩
  · intro hmem
    have hcont : p.videos.contains video.vid = true := by
      rw [hvid]
      exact List.contains_iff_exists_mem_beq.mpr ⟨videoId, hmem, by simp⟩
    unfold addVideoToPlaylist
    rw [if_neg (by simp [hv, hp])]
    simp only [hfv, hfp, hcont]
    simp
  · intro hmem
    have hcont : p.videos.contains video.vid = true := by
      rw [hvid]
      exact List.contains_iff_exists_mem_beq.mpr ⟨videoId, hmem, by simp⟩
    unfold removeVideoFromPlaylist
    rw [if_neg (by simp [hv, hp])]
    simp only [hfv, hfp, hcont]
    refine ⟨by simp [hvid], fun h => by simp [h]⟩
  · intro hmem
    have hcont : p.videos.contains video.vid = false := by
      rw [hvid]
      exact Bool.eq_false_iff.mpr (fun hc => hmem (List.contains_iff_exists_mem_beq.mp hc
        |>.elim (fun b hb => by
          obtain ⟨hbmem, hbeq⟩ := hb
          rw [show videoId = b from by simpa using hbeq]
          exact hbmem)))
    unfold removeVideoFromPlaylist
    rw [if_neg (by simp [hv, hp])]
    simp only [hfv, hfp, hcont]
    simp

/-- Witness for C7: the "Favs" scenario at concrete ids (the
empty-playlist add case of the claim, hypotheses discharged). -/
theorem claim_c7_playlist_add_remove_witness :
    isValidObjectId "650000000000000000000003" = true
    ∧ isValidObjectId "650000000000000000000004" = true
    ∧ [(⟨"650000000000000000000003", "V1", "", "", "", 0, 0⟩ : VideoDoc)].find?
        (fun v => v.vid == "650000000000000000000003")
        = some ⟨"650000000000000000000003", "V1", "", "", "", 0, 0⟩
    ∧ [(⟨"650000000000000000000004", "Favs", "fav videos", "650000000000000000000001", []⟩ :
        PlaylistDoc)].find? (fun q => q.plId == "650000000000000000000004")
        = some ⟨"650000000000000000000004", "Favs", "fav videos", "650000000000000000000001", []⟩
    ∧ ("650000000000000000000003" ∉
          (⟨"650000000000000000000004", "Favs", "fav videos", "650000000000000000000001",
            []⟩ : PlaylistDoc).videos →
        (addVideoToPlaylist "650000000000000000000003" "650000000000000000000004"
            [⟨"650000000000000000000003", "V1", "", "", "", 0, 0⟩]
            [⟨"650000000000000000000004", "Favs", "fav videos", "650000000000000000000001",
              []⟩]).2
          = .json 200 ⟨"650000000000000000000004", "Favs", "fav videos",
              "650000000000000000000001", [] ++ ["650000000000000000000003"]⟩
              "video added to playlist successfully"
        ∧ (([] : List String) = [] →
            ([] : List String) ++ ["650000000000000000000003"] = ["650000000000000000000003"])) :=
  ⟨by decide, by decide, by decide, by decide,
   (claim_c7_playlist_add_remove "650000000000000000000003" "650000000000000000000004"
     [⟨"650000000000000000000003", "V1", "", "", "", 0, 0⟩]
     [⟨"650000000000000000000004", "Favs", "fav videos", "650000000000000000000001", []⟩]
     ⟨"650000000000000000000003", "V1", "", "", "", 0, 0⟩
     ⟨"650000000000000000000004", "Favs", "fav videos", "650000000000000000000001", []⟩
     (by decide) (by decide) (by decide) (by decide)).1⟩

/-! ## Content: paginated video listing (src/unnamed/part_002, `getAllVideos`) -/

/-- Character-list prefix test (used for substring search). -/
def listStartsWith : List Char → List Char → Bool
  | [], _ => true
  | _ :: _, [] => false
  | a :: as, b :: bs => a == b && listStartsWith as bs

/-- Case-insensitive substring containment, the semantics of the
match stage `$regex: query, $options: "i"` of the handler for a plain query
string (regex metacharacters out of scope). -/
def strContainsCI (hay needle : String) : Bool :=
  let h := hay.toLower.toList
  let n := needle.toLower.toList
  (List.range (h.length + 1)).any (fun i => listStartsWith n (h.drop i))

/-- The `$match` stage predicate: query against title or description. -/
def matchesQuery (q : String) (v : VideoDoc) : Bool :=
  strContainsCI v.title q || strContainsCI v.description q

/-- Documents surviving the optional `$match` stage (`if (query)` is a
JS truthiness test, so an absent or empty query skips the stage). -/
def matchedDocs (docs : List VideoDoc) (query : Option String) : List VideoDoc :=
  match query with
  | some q => if jsTruthyStr q then docs.filter (matchesQuery q) else docs
  | none => docs

/-- Comparison on the named sort field (unknown fields compare equal,
as a missing field does in the database sort). -/
def videoFieldLe (f : String) (a b : VideoDoc) : Bool :=
  match f with
  | "title" => decide (a.title ≤ b.title)
  | "description" => decide (a.description ≤ b.description)
  | "views" => decide (a.views ≤ b.views)
  | "duration" => decide (a.duration ≤ b.duration)
  | _ => true

/-- Insertion into a sorted list (helper for the `$sort` stage). -/
def insertSorted (le : α → α → Bool) (a : α) : List α → List α
  | [] => [a]
  | b :: bs => if le a b then a :: b :: bs else b :: insertSorted le a bs

/-- Insertion sort realising the `$sort` stage. -/
def sortByLe (le : α → α → Bool) : List α → List α
  | [] => []
  | a :: as => insertSorted le a (sortByLe le as)

/-- The optional `$sort` stage: applied only when both `sortBy` and
`sortType` are truthy; direction is descending exactly when
`sortType === "desc"`. -/
def applySort (sortBy sortType : Option String) (docs : List VideoDoc) : List VideoDoc :=
  match sortBy, sortType with
  | some f, some t =>
    if jsTruthyStr f && jsTruthyStr t then
      sortByLe (fun a b => if t == "desc" then videoFieldLe f b a else videoFieldLe f a b) docs
    else docs
  | _, _ => docs

/-- Result of the `$facet` stage as read off by the handler:
`paginatedResults` and `totalCount[0]?.count` (which is `undefined`
when nothing matched, because `$count` emits no document then). -/
structure GetAllVideosData where
  paginatedResults : List VideoDoc
  totalCount : Option Nat
  deriving Repr, DecidableEq

/-- A pagination value as the handler sees it after
`const { page = 1, limit = 10 } = req.query`: the numeric destructuring
default when the request omitted the parameter, the raw query string
when the request supplied it. -/
inductive QueryVal where
  | num (n : Nat)
  | str (s : String)
  deriving Repr, DecidableEq

deriving instance DecidableEq for Except

/-- Decimal reading of a digit string (helper for JS numeric coercion). -/
def stringToNat (s : String) : Nat :=
  s.toList.foldl (fun a c => a * 10 + (c.toNat - 48)) 0

/-- JS numeric coercion of a pagination value, as performed by the
arithmetic `limit * (page - 1)`: numbers pass through, digit strings
coerce to their value, anything else coerces to NaN (`none`). -/
def jsToNum : QueryVal → Option Nat
  | .num n => some n
  | .str s => if s ≠ "" && s.toList.all Char.isDigit then some (stringToNat s) else none

/-- `getAllVideos` (src/unnamed/part_002 lines 19–65): optional match
stage, optional sort stage, then a `$facet` computing in one pass the
page (`$skip: limit * (page - 1)`, `$limit: limit`) and the total
count of matching documents.  `page` and `limit` come from `req.query`:
a supplied parameter is a string.  The `$skip` argument is the JS
product, which coerces strings numerically (NaN makes `$skip` fail),
but `$limit` receives the raw `limit` value uncast — mongoose does not
cast aggregation pipelines — and the database rejects a non-numeric
`$limit`, failing the whole aggregation. -/
def getAllVideos (docs : List VideoDoc) (page limit : QueryVal)
    (query sortBy sortType : Option String) : Except String GetAllVideosData :=
  let afterMatch := matchedDocs docs query
  let afterSort := applySort sortBy sortType afterMatch
  match jsToNum limit, jsToNum page with
  | some l, some p =>
    match limit with
    | .num _ =>
      .ok { paginatedResults := (afterSort.drop (l * (p - 1))).take l,
            totalCount := if afterSort.length = 0 then none else some afterSort.length }
    | .str _ => .error "invalid argument to limit stage: expected a number"
  | _, _ => .error "invalid argument to skip stage: expected a number"

/-- C8: the claimed scenario — a request actually supplying
`page=1&limit=10` (query-string values) over 25 matching documents —
makes the aggregation fail, because the handler passes the uncast
string into `$limit`; the claimed pages are produced only when the
request omits `limit` so that its numeric destructuring default 10
applies (`$skip` coerces the supplied page string numerically). -/
theorem claim_c8_supplied_limit_errors :
    getAllVideos ((List.range 25).map (fun i => ⟨toString i, "", "", "", "", 0, 0⟩))
        (.str "1") (.str "10") none none none
      = .error "invalid argument to limit stage: expected a number"
    ∧ getAllVideos ((List.range 25).map (fun i => ⟨toString i, "", "", "", "", 0, 0⟩))
        (.str "3") (.str "10") none none none
      = .error "invalid argument to limit stage: expected a number"
    ∧ getAllVideos ((List.range 25).map (fun i => ⟨toString i, "", "", "", "", 0, 0⟩))
        (.str "1") (.num 10) none none none
      = .ok ⟨((List.range 25).map (fun i => ⟨toString i, "", "", "", "", 0, 0⟩)).take 10,
             some 25⟩
    ∧ (((List.range 25).map (fun i =>
          (⟨toString i, "", "", "", "", 0, 0⟩ : VideoDoc))).take 10).length = 10
    ∧ getAllVideos ((List.range 25).map (fun i => ⟨toString i, "", "", "", "", 0, 0⟩))
        (.str "3") (.num 10) none none none
      = .ok ⟨((List.range 25).map (fun i => ⟨toString i, "", "", "", "", 0, 0⟩)).drop 20,
             some 25⟩
    ∧ (((List.range 25).map (fun i =>
          (⟨toString i, "", "", "", "", 0, 0⟩ : VideoDoc))).drop 20).length = 5 := by
  decide

/-! ## Identity component (src/src/controllers/dashboard.controller.js,
second related document: the user controller) -/

/-- Case-sensitive substring containment (`String.prototype.includes`). -/
def strContains (hay needle : String) : Bool :=
  let h := hay.toList
  let n := needle.toList
  (List.range (h.length + 1)).any (fun i => listStartsWith n (h.drop i))

/-- The runtime value of the `watchhistory` field of a user: the stored array
of video ids, or a JS string (what the `+=` in `getVideoById` produces). -/
inductive WhVal where
  | arr (ids : List String)
  | str (s : String)
  deriving Repr, DecidableEq

/-- JS `toString` of the watch-history value (`Array.prototype.toString`
joins with commas). -/
def whToString : WhVal → String
  | .arr ids => String.intercalate "," ids
  | .str s => s

/-- JS `.includes` on the watch-history value: array membership on an
array, substring containment on a string. -/
def whIncludes : WhVal → String → Bool
  | .arr ids, v => ids.contains v
  | .str s, v => strContains s v

/-- A document of the `users` collection (fields per the data model and
the controllers).  `password` holds the stored (hashed) credential;
`bcrypt.compare` is abstracted: a candidate is correct exactly when it
equals the stored credential. -/
structure UserDoc where
  idHex : String
  username : String
  email : String
  fullname : String
  password : String
  avatar : String
  coverimage : String
  refreshToken : Option String
  watchhistory : WhVal
  deriving Repr, DecidableEq

/-- A mongo document rendered as its list of (field, value) pairs; field
presence in a response is what claim C2 is about. -/
def userToDoc (u : UserDoc) : List (String × String) :=
  [("_id", u.idHex), ("username", u.username), ("email", u.email),
   ("fullname", u.fullname), ("password", u.password), ("avatar", u.avatar),
   ("coverimage", u.coverimage),
   ("refreshToken", match u.refreshToken with | some t => t | none => "null"),
   ("watchhistory", whToString u.watchhistory)]

/-- JS property access `obj[k]` on an object rendered as a field list:
`none` is `undefined`. -/
def jsGet (o : List (String × String)) (k : String) : Option String :=
  (o.find? (fun kv => kv.1 == k)).map (fun kv => kv.2)

/-- `.select("-field ...")`: exclusion projection. -/
def selectWithout (excluded : List String) (doc : List (String × String)) :
    List (String × String) :=
  doc.filter (fun kv => !(excluded.contains kv.1))

/-- `user.isPasswordCorrect(password)`: bcrypt compare abstracted to
equality with the stored credential. -/
def isPasswordCorrect (candidate : String) (u : UserDoc) : Bool :=
  candidate == u.password

/-- Modelled from the spec: `user.generateAccessToken()` (user.model.js
is not under src/) — a short-lived signed token; `nonce` stands for the
signing-time freshness (issued-at/expiry). -/
def mkAccessToken (uid nonce : String) : String :=
  "access:" ++ uid ++ ":" ++ nonce

/-- Modelled from the spec: `user.generateRefreshToken()` — a
long-lived signed token carrying the user id. -/
def mkRefreshToken (uid nonce : String) : String :=
  "refresh:" ++ uid ++ ":" ++ nonce

/-- Split a character list on the colon separator (helper for reading
the structured token values back). -/
def splitOnColon : List Char → List (List Char)
  | [] => [[]]
  | c :: rest =>
    match splitOnColon rest with
    | [] => [[]]
    | g :: gs => if c == ':' then [] :: g :: gs else (c :: g) :: gs

/-- Modelled from the spec: `jwt.verify(token, REFRESH_TOKEN_SECRET)` —
succeeds exactly on well-formed refresh tokens, yielding the decoded
`_id`; anything else throws (modelled as `none`). -/
def verifyRefreshToken (tok : String) : Option String :=
  match (splitOnColon tok.toList).map (fun cs => String.mk cs) with
  | ["refresh", uid, _] => some uid
  | _ => none

/-- `generateAccessAndRefreshTokens` (user controller lines 73–87 /
1284–1298): finds the user, generates both tokens, persists the refresh
token on the user record, and returns a JS object whose own properties
are `accessToken` and `refreshToken`.  If the lookup fails the method
call on `null` throws, caught and rethrown as `ApiError(500, ...)`. -/
def generateAccessAndRefreshTokens (nonce uid : String) (users : List UserDoc) :
    Except (Nat × String) (List UserDoc × List (String × String)) :=
  match users.find? (fun u => u.idHex == uid) with
  | none => .error (500, "cannot read generateAccessToken of null")
  | some _ =>
    let accessToken := mkAccessToken uid nonce
    let refreshToken := mkRefreshToken uid nonce
    .ok (users.map (fun w => if w.idHex == uid then { w with refreshToken := some refreshToken } else w),
         [("accessToken", accessToken), ("refreshToken", refreshToken)])

/-- `req.body` of `POST /users/login`. -/
structure LoginReq where
  email : Option String
  username : Option String
  password : Option String
  deriving Repr, DecidableEq

/-- Outcome of `loginUser`: on success the response carries the user
document (password and refresh token stripped) plus both tokens. -/
inductive LoginOutcome where
  | ok (user : List (String × String)) (accessToken refreshToken : Option String)
  | apiError (status : Nat) (msg : String)
  deriving Repr, DecidableEq

/-- `loginUser` (user controller lines 1368–1427): rejects when both
`email` and `username` are truthy; requires `password`; then
`findOne({ $or: [{email}, {username}] })` — an absent identifier is
serialised as null by the driver and matches no user document (every
user has both fields set), so a branch with an absent field never
matches; 404 when nothing matches; 401 on wrong password; otherwise
issues tokens and responds with the projected user plus tokens. -/
def loginUser (nonce : String) (req : LoginReq) (users : List UserDoc) :
    List UserDoc × LoginOutcome :=
  if jsTruthyOpt req.email && jsTruthyOpt req.username then
    (users, .apiError 400 "provide either email or username")
  else if ¬ jsTruthyOpt req.password then
    (users, .apiError 400 "password is required")
  else
    match users.find? (fun u => req.email == some u.email || req.username == some u.username) with
    | none => (users, .apiError 404 "user not found")
    | some user =>
      if ¬ isPasswordCorrect (req.password.getD "") user then
        (users, .apiError 401 "password is incorrect")
      else
        match generateAccessAndRefreshTokens nonce user.idHex users with
        | .error e => (users, .apiError e.1 e.2)
        | .ok (users2, tokens) =>
          let loggedinUser :=
            match users2.find? (fun u => u.idHex == user.idHex) with
            | some u => selectWithout ["password", "refreshToken"] (userToDoc u)
            | none => []
          (users2, .ok loggedinUser (jsGet tokens "accessToken") (jsGet tokens "refreshToken"))

/-- Refresh-token request: cookie and body fields. -/
structure RefreshReq where
  cookieRefreshToken : Option String
  bodyRefreshToken : Option String
  deriving Repr, DecidableEq

/-- JS `a || b` on two possibly-undefined strings. -/
def jsOrOpt (a b : Option String) : Option String :=
  if jsTruthyOpt a then a else b

/-- Outcome of `refreshAccessToken`: the success JSON carries
`{ accessToken, refreshToken }`, either of which can be `undefined`. -/
inductive RefreshOutcome where
  | ok (accessToken refreshToken : Option String)
  | apiError (status : Nat) (msg : String)
  deriving Repr, DecidableEq

/-- `refreshAccessToken` (user controller lines 1454–1502): requires a
token (cookie or body); inside a try/catch it verifies the token, loads
the user, rejects a mismatch with the persisted token (the thrown 401
is caught and rethrown as `ApiError(500, message)`), then calls
`generateAccessAndRefreshTokens` and destructures
`{ accessToken, newRefreshToken }` from its result — but the property of the returned
object is named `refreshToken`, so `newRefreshToken` is
`undefined`; the `refreshToken` field of the response is that value. -/
def refreshAccessToken (nonce : String) (req : RefreshReq) (users : List UserDoc) :
    List UserDoc × RefreshOutcome :=
  let incoming := jsOrOpt req.cookieRefreshToken req.bodyRefreshToken
  if ¬ jsTruthyOpt incoming then
    (users, .apiError 400 "unauthorized access")
  else
    let tok := incoming.getD ""
    match verifyRefreshToken tok with
    | none => (users, .apiError 500 "jwt malformed")
    | some uid =>
      match users.find? (fun u => u.idHex == uid) with
      | none => (users, .apiError 500 "unauthorized access")
      | some user =>
        if user.refreshToken ≠ some tok then
          (users, .apiError 500 "refresh Token is mismatch")
        else
          match generateAccessAndRefreshTokens nonce user.idHex users with
          | .error e => (users, .apiError 500 e.2)
          | .ok (users2, tokens) =>
            (users2, .ok (jsGet tokens "accessToken") (jsGet tokens "newRefreshToken"))

/-- `RegisterUser` response data (user controller lines 1355–1365): the
created user re-fetched with `.select("-password -refreshToken")`. -/
def registerUserResponseData (u : UserDoc) : List (String × String) :=
  selectWithout ["password", "refreshToken"] (userToDoc u)

/-- `getChannelProfile` response data (user controller lines
1620–1668): the aggregation adds the two counts and `isSubscribed`,
then `$project`s the listed fields (an inclusion projection also keeps
`_id`); `password` is not among them. -/
def getChannelProfileData (u : UserDoc) (subscribersCount channelSubscribedToCount : Nat)
    (isSubscribed : Bool) : List (String × String) :=
  (userToDoc u ++
    [("subscribersCount", toString subscribersCount),
     ("channelSubscribedToCount", toString channelSubscribedToCount),
     ("isSubscribed", if isSubscribed then "true" else "false")]).filter
    (fun kv => ["_id", "fullname", "username", "avatar", "coverimage",
      "subscribersCount", "channelSubscribedToCount", "isSubscribed"].contains kv.1)

/-- `getWatchHistory` response data (user controller lines 1680–1728):
the pipeline is `$match` followed by a `$lookup` that adds the resolved
`watchHistory` field — there is no `$project` stage, so every stored
user field passes through to the response.  The nested video+owner
resolution is abstracted as an opaque rendered value. -/
def getWatchHistoryData (u : UserDoc) (resolvedHistory : String) :
    List (String × String) :=
  userToDoc u ++ [("watchHistory", resolvedHistory)]

/-- A concrete registered user used by the concrete evaluations. -/
def aliceExample : UserDoc :=
  ⟨"650000000000000000000001", "alice", "alice@x.com", "Alice", "pw1hash",
   "a.png", "", none, .arr []⟩

/-- C2: the password field is stripped from the registration response,
the login response and the channel profile projection, but
`getWatchHistory` has no projection stage, so its response carries the
stored password field — the claim fails on that operation. -/
theorem claim_c2_password_in_watch_history :
    jsGet (registerUserResponseData aliceExample) "password" = none
    ∧ (match (loginUser "n0" ⟨some "alice@x.com", none, some "pw1hash"⟩ [aliceExample]).2 with
       | .ok u _ _ => jsGet u "password"
       | .apiError _ _ => some "login unexpectedly failed") = none
    ∧ jsGet (getChannelProfileData aliceExample 0 0 false) "password" = none
    ∧ jsGet (getWatchHistoryData aliceExample "resolved-videos") "password" = some "pw1hash" := by
  decide

/-- C5 counterexample: a login request that supplies neither identifier
(but a password) is not rejected with a validation error; it reaches the
lookup and fails with the 404 not-found error. -/
theorem claim_c5_counterexample_neither_identifier :
    (loginUser "n0" ⟨none, none, some "pw1hash"⟩ [aliceExample]).2
      = .apiError 404 "user not found"
    ∧ (loginUser "n0" ⟨none, none, some "pw1hash"⟩ [aliceExample]).2
      ≠ .apiError 400 "provide either email or username" := by decide

/-- C5 (amended): loginUser rejects with a validation error every
request supplying both email and username (regardless of password
correctness) and every request missing a password; a request with
neither identifier is not rejected by validation but proceeds to the
lookup, which matches no user, so it fails with the not-found error;
when an identifier is given, it fails with the not-found error if no
user matches and the authentication error if the password is wrong. -/
theorem claim_c5_login_validation (nonce : String) (req : LoginReq)
    (users : List UserDoc) :
    (jsTruthyOpt req.email = true → jsTruthyOpt req.username = true →
      (loginUser nonce req users).2 = .apiError 400 "provide either email or username")
    ∧ (¬ (jsTruthyOpt req.email = true ∧ jsTruthyOpt req.username = true) →
        jsTruthyOpt req.password = false →
        (loginUser nonce req users).2 = .apiError 400 "password is required")
    ∧ (req.email = none → req.username = none → jsTruthyOpt req.password = true →
        (loginUser nonce req users).2 = .apiError 404 "user not found")
    ∧ (jsTruthyOpt req.password = true →
       ¬ (jsTruthyOpt req.email = true ∧ jsTruthyOpt req.username = true) →
       (users.find? (fun u => req.email == some u.email || req.username == some u.username)
            = none →
          (loginUser nonce req users).2 = .apiError 404 "user not found")
       ∧ (∀ user,
            users.find? (fun u => req.email == some u.email || req.username == some u.username)
              = some user →
            isPasswordCorrect (req.password.getD "") user = false →
            (loginUser nonce req users).2 = .apiError 401 "password is incorrect")) := by
  refine ⟨?_, ?_, ?_, ?_⟩
  · intro h1 h2
    unfold loginUser
    rw [if_pos (by simp [h1, h2])]
  · intro hboth hp
    unfold loginUser
    rw [if_neg (fun hc => hboth (by simpa using hc)), if_pos (by simp [hp])]
  · intro he hu hp
    have hfind : users.find?
        (fun u => req.email == some u.email || req.username == some u.username) = none := by
      rw [List.find?_eq_none]
      intro u _
      simp [he, hu]
    unfold loginUser
    rw [if_neg (by simp [jsTruthyOpt, he]), if_neg (by simp [hp]), hfind]
  · intro hp hboth
    constructor
    · intro hfind
      unfold loginUser
      rw [if_neg (fun hc => hboth (by simpa using hc)), if_neg (by simp [hp]), hfind]
    · intro user hfind hpw
      unfold loginUser
      rw [if_neg (fun hc => hboth (by simpa using hc)), if_neg (by simp [hp]), hfind]
      simp only [hpw]
      rw [if_pos (by simp)]

/-- Witness for C5 (amended) at concrete inputs: the neither-identifier
case applied to the store holding only alice. -/
theorem claim_c5_login_validation_witness :
    (⟨none, none, some "pw1hash"⟩ : LoginReq).email = none
    ∧ (⟨none, none, some "pw1hash"⟩ : LoginReq).username = none
    ∧ jsTruthyOpt (⟨none, none, some "pw1hash"⟩ : LoginReq).password = true
    ∧ (loginUser "n0" ⟨none, none, some "pw1hash"⟩ [aliceExample]).2
        = .apiError 404 "user not found" :=
  ⟨rfl, rfl, by decide,
   (claim_c5_login_validation "n0" ⟨none, none, some "pw1hash"⟩ [aliceExample]).2.2.1
     rfl rfl (by decide)⟩

/-- C6: a mismatching presented refresh token fails; on the success path
the new refresh token is persisted on the user record, but the
`refreshToken` field of the response is `undefined`, because the handler destructures
`newRefreshToken` from an object whose property is named `refreshToken`
— so the claimed "both tokens defined and present in the response"
fails on the code. -/
theorem claim_c6_refresh_response_token_undefined :
    (refreshAccessToken "n1"
        ⟨some "refresh:650000000000000000000001:stale", none⟩
        [{ aliceExample with refreshToken := some "refresh:650000000000000000000001:n0" }]).2
      = .apiError 500 "refresh Token is mismatch"
    ∧ (refreshAccessToken "n1"
        ⟨some "refresh:650000000000000000000001:n0", none⟩
        [{ aliceExample with refreshToken := some "refresh:650000000000000000000001:n0" }]).1
      = [{ aliceExample with refreshToken := some "refresh:650000000000000000000001:n1" }]
    ∧ (refreshAccessToken "n1"
        ⟨some "refresh:650000000000000000000001:n0", none⟩
        [{ aliceExample with refreshToken := some "refresh:650000000000000000000001:n0" }]).2
      = .ok (some "access:650000000000000000000001:n1") none := by decide

/-! ## Content: getVideoById and updateVideo (src/unnamed/part_001 and
src/unnamed/part_002, the two video controller documents) -/

/-- `getVideoById` as in src/unnamed/part_001 lines 606–629: fetches the
video, and when `user.watchhistory.includes(videoId)` is false executes
`user.watchhistory += [videoId]` and `video.views += 1`, then saves
both documents inside a try/catch.  The JS `+=` evaluates
`String(watchhistory) + String([videoId])`: it replaces the array by a
comma-less string concatenation (the in-memory document value; the
mongoose cast performed at save time is not modelled because the value
is already not a list append).  When the video lookup yields null, the
`views` increment throws an uncaught TypeError outside the try block
(un-viewed case) or the null `save()` throws inside it (viewed case). -/
def getVideoById_v1 (videoId : Option String) (user : UserDoc)
    (videos : List VideoDoc) : UserDoc × List VideoDoc × Outcome VideoDoc :=
  if ¬ jsTruthyOpt videoId then
    (user, videos, .apiError 400 "videoId is required")
  else
    let vid := videoId.getD ""
    match videos.find? (fun v => v.vid == vid) with
    | none =>
      if ¬ whIncludes user.watchhistory vid then
        ({ user with watchhistory := .str (whToString user.watchhistory ++ vid) }, videos,
         .jsError "TypeError: cannot read views of null")
      else
        (user, videos, .apiError 400 "something went wrong")
    | some video =>
      if ¬ whIncludes user.watchhistory vid then
        let user2 := { user with watchhistory := .str (whToString user.watchhistory ++ vid) }
        let video2 := { video with views := video.views + 1 }
        (user2, videos.map (fun w => if w.vid == vid then video2 else w),
         .json 200 video2 "video fetched")
      else
        (user, videos, .json 200 video "video fetched")

/-- `getVideoById` as in src/unnamed/part_002 lines 128–140 (the
variant the claim cites): fetches the video by id and returns it,
performing no watch-history append and no view increment. -/
def getVideoById_v2 (videoId : Option String) (user : UserDoc)
    (videos : List VideoDoc) : UserDoc × List VideoDoc × Outcome (Option VideoDoc) :=
  if ¬ jsTruthyOpt videoId then
    (user, videos, .apiError 400 "videoId is required")
  else
    (user, videos,
     .json 200 (videos.find? (fun v => v.vid == videoId.getD ""))
       "video fetched successfully")

/-- C4: evaluation at a user whose history holds one video viewing a
second one.  The part_001 variant turns the history array into the JS
string concatenation (no comma, not a list append) while still
incrementing the view counter, and the part_002 variant (the cited
lines) performs no history append and no view increment at all — both
contradict the claimed append of the video id to the watch-history of that user. -/
theorem claim_c4_watch_history_not_appended :
    (getVideoById_v1 (some "650000000000000000000002")
        { aliceExample with watchhistory := .arr ["650000000000000000000001"] }
        [⟨"650000000000000000000002", "t", "d", "th", "vf", 0, 7⟩]).1.watchhistory
      = .str "650000000000000000000001650000000000000000000002"
    ∧ (getVideoById_v1 (some "650000000000000000000002")
        { aliceExample with watchhistory := .arr ["650000000000000000000001"] }
        [⟨"650000000000000000000002", "t", "d", "th", "vf", 0, 7⟩]).1.watchhistory
      ≠ .arr ["650000000000000000000001", "650000000000000000000002"]
    ∧ (getVideoById_v1 (some "650000000000000000000002")
        { aliceExample with watchhistory := .arr ["650000000000000000000001"] }
        [⟨"650000000000000000000002", "t", "d", "th", "vf", 0, 7⟩]).2.1
      = [⟨"650000000000000000000002", "t", "d", "th", "vf", 1, 7⟩]
    ∧ getVideoById_v2 (some "650000000000000000000002")
        { aliceExample with watchhistory := .arr ["650000000000000000000001"] }
        [⟨"650000000000000000000002", "t", "d", "th", "vf", 0, 7⟩]
      = ({ aliceExample with watchhistory := .arr ["650000000000000000000001"] },
         [⟨"650000000000000000000002", "t", "d", "th", "vf", 0, 7⟩],
         .json 200 (some ⟨"650000000000000000000002", "t", "d", "th", "vf", 0, 7⟩)
           "video fetched successfully") := by decide

/-- The JS callback `(field) => field.trim() === ""` evaluated by
`Array.prototype.some` left to right with short-circuiting: calling
`.trim()` on an absent (`undefined`) field throws a TypeError. -/
def someTrimEmpty : List (Option String) → Except String Bool
  | [] => .ok false
  | none :: _ => .error "TypeError: cannot read trim of undefined"
  | some s :: rest =>
    if s.toList.all Char.isWhitespace then .ok true else someTrimEmpty rest

/-- `req` fields of `PATCH /video/:videoId` (`req.file` yields the local
path of the new thumbnail when one was uploaded). -/
structure UpdateVideoReq where
  title : Option String
  description : Option String
  thumbNailLocalPath : Option String
  deriving Repr, DecidableEq

/-- `updateVideo` (src/unnamed/part_001 lines 784–828 = part_002 lines
187–224): evaluates `[title, description, thumbNailLocalPath].some(
(field) => field.trim() === "")` — throwing the 400 validation error if
some supplied field is blank, and throwing an uncaught TypeError as
soon as an absent field is reached; only when all three are supplied
and non-blank does it proceed to validate the id, load the video,
replace the thumbnail, set the truthy fields and save.
`s.trim() === ""` holds exactly when every character is whitespace.
The `upload` argument is the outcome of the external interaction in
`uploadToCloudinary` (src/src/utils/cloudinary.js) for the given local
path: `some response.url` on success, `none` when the upload throws
and the catch returns null — in which case `newThumbnail.url` in this
handler throws an uncaught TypeError (there is no try/catch here), so
nothing is saved.  `deleteFromCloudinary(oldThumbnail)` swallows its
own failures (its catch only logs) and cannot affect the outcome. -/
def updateVideo (upload : String → Option String) (videoId : Option String)
    (req : UpdateVideoReq) (videos : List VideoDoc) :
    List VideoDoc × Outcome VideoDoc :=
  match someTrimEmpty [req.title, req.description, req.thumbNailLocalPath] with
  | .error msg => (videos, .jsError msg)
  | .ok true => (videos, .apiError 400 "atleast provide one of title, description or thumbnail")
  | .ok false =>
    if ¬ jsTruthyOpt videoId then
      (videos, .apiError 400 "videoId is required")
    else
      match videos.find? (fun v => v.vid == videoId.getD "") with
      | none => (videos, .apiError 404 "video not found")
      | some video =>
        let afterThumb : Except String VideoDoc :=
          if jsTruthyOpt req.thumbNailLocalPath then
            match upload (req.thumbNailLocalPath.getD "") with
            | none => .error "TypeError: cannot read url of null"
            | some url => .ok { video with thumbnail := url }
          else .ok video
        match afterThumb with
        | .error msg => (videos, .jsError msg)
        | .ok v1 =>
          let v2 := if jsTruthyOpt req.title then { v1 with title := req.title.getD "" } else v1
          let v3 := if jsTruthyOpt req.description then
              { v2 with description := req.description.getD "" }
            else v2
          (videos.map (fun w => if w.vid == video.vid then v3 else w),
           .json 200 v3 "video updated successfully")

/-- C9: evaluation at concrete requests.  Supplying only a title (the
claim says this succeeds) raises an uncaught TypeError and changes
nothing; supplying none of the three (the claim says this is the 400
validation error) raises the same TypeError; a request supplying all
three non-blank fields updates the video when the thumbnail upload
succeeds, and raises an uncaught TypeError (nothing saved) when the
upload fails and returns null. -/
theorem claim_c9_update_video_requires_all_fields :
    updateVideo (fun p => some ("https://cloudinary-host/" ++ p))
        (some "650000000000000000000002") ⟨some "new title", none, none⟩
        [⟨"650000000000000000000002", "t", "d", "th", "vf", 0, 7⟩]
      = ([⟨"650000000000000000000002", "t", "d", "th", "vf", 0, 7⟩],
         .jsError "TypeError: cannot read trim of undefined")
    ∧ updateVideo (fun p => some ("https://cloudinary-host/" ++ p))
        (some "650000000000000000000002") ⟨none, none, none⟩
        [⟨"650000000000000000000002", "t", "d", "th", "vf", 0, 7⟩]
      = ([⟨"650000000000000000000002", "t", "d", "th", "vf", 0, 7⟩],
         .jsError "TypeError: cannot read trim of undefined")
    ∧ updateVideo (fun p => some ("https://cloudinary-host/" ++ p))
        (some "650000000000000000000002") ⟨some "t2", some "d2", some "p.jpg"⟩
        [⟨"650000000000000000000002", "t", "d", "th", "vf", 0, 7⟩]
      = ([⟨"650000000000000000000002", "t2", "d2", "https://cloudinary-host/p.jpg", "vf", 0, 7⟩],
         .json 200
           ⟨"650000000000000000000002", "t2", "d2", "https://cloudinary-host/p.jpg", "vf", 0, 7⟩
           "video updated successfully")
    ∧ updateVideo (fun _ => none)
        (some "650000000000000000000002") ⟨some "t2", some "d2", some "p.jpg"⟩
        [⟨"650000000000000000000002", "t", "d", "th", "vf", 0, 7⟩]
      = ([⟨"650000000000000000000002", "t", "d", "th", "vf", 0, 7⟩],
         .jsError "TypeError: cannot read url of null") := by decide

end JsBackend
